import Mathlib

/-!
Verification development for the async task progress synchronizer of the
retail-workforce-management frontend.  Each feature dashboard pairs one
backend request with a timer-driven stage animation and commits the payload
to its result slot only when both have finished.  The definitions below are
shallow embeddings of the React components:

* `RetentionAnalytics`  — frontend/src/components/RetentionAnalytics.tsx
* `LearningPathway`     — frontend/src/components/LearningPathway.tsx
* `SentimentDashboard`  — frontend/src/components/SentimentDashboard.tsx
* `SchedulingDashboard` — frontend/src/components/SchedulingDashboard.tsx

React state hooks become record fields, setState calls become record
updates, and each useEffect body / cleanup becomes a function on the state.
An effect cleanup closes over the value the flag had when the effect ran,
so the cleanups take that captured value as an explicit argument.
The result payloads are opaque to the coordination logic and are modelled
by a type parameter.
-/

/-- Stage status as used by all four dashboards: `'waiting' | 'working' | 'completed'`. -/
inductive AgentStatus
  | waiting
  | working
  | completed
  deriving DecidableEq, Repr

/-- Numeric rank of a status, used to state monotone advancement. -/
def statusRank : AgentStatus → Nat
  | .waiting => 0
  | .working => 1
  | .completed => 2

/-- Helper for `mapWithIndex`, carrying the running index. -/
def mapWithIndexGo (f : Nat → α → β) : Nat → List α → List β
  | _, [] => []
  | i, a :: as => f i a :: mapWithIndexGo f (i + 1) as

/-- JavaScript `array.map((element, idx) => ...)`: map with the element index. -/
def mapWithIndex (f : Nat → α → β) (l : List α) : List β :=
  mapWithIndexGo f 0 l

/-- Successive states visited when applying a list of updates in order,
starting from `init` (the initial state is included). -/
def stateTrace (init : α) : List (α → α) → List α
  | [] => [init]
  | f :: fs => init :: stateTrace (f init) fs

/-- One scheduled callback of the stage animation: the two stage-list
updates performed by `runAgentSequence`, and the final settle callback that
raises the sequence-complete signal. -/
inductive AnimEvent
  | advanceStart (i : Nat)
  | advanceFinish (i : Nat)
  | signalComplete
  deriving DecidableEq, Repr

/-- Timer schedule of `runAgentSequence`, shared verbatim by the three
stage-animated dashboards (they differ only in the stage count `n` and the
randomized dwell `wt`).  Each entry is (delay since the previous callback,
callback).  The fuel argument starts at `n` and mirrors the
`currentAgentIndex < n` bound of the source: index `i` and fuel `k` keep
`i + k = n`, so the fuel never runs out on a reachable call. -/
def agentSequenceEventsAux (wt : Nat → Nat) (n : Nat) : Nat → Nat → Nat → List (Nat × AnimEvent)
  | 0, _, _ => []
  | k + 1, startDelay, i =>
      if i < n then
        (startDelay, AnimEvent.advanceStart i) ::
        (wt i, AnimEvent.advanceFinish i) ::
        (if i + 1 < n then agentSequenceEventsAux wt n k 500 (i + 1)
         else [(1000, AnimEvent.signalComplete)])
      else []

/-- Full timer schedule of one animation run: the initial 500 ms timeout,
then `runAgentSequence` from stage 0. -/
def agentSequenceEvents (wt : Nat → Nat) (n : Nat) : List (Nat × AnimEvent) :=
  agentSequenceEventsAux wt n n 500 0

/-- Between two consecutive stage-list states, no stage status went backwards. -/
def stepMonotone (stat : σ → AgentStatus) (s t : List σ) : Bool :=
  (s.zip t).all fun p => decide (statusRank (stat p.1) ≤ statusRank (stat p.2))

/-- Every consecutive pair of states in the trace is a monotone step. -/
def traceMonotone (stat : σ → AgentStatus) (states : List (List σ)) : Bool :=
  (states.zip states.tail).all fun p => stepMonotone stat p.1 p.2

/-- At most one stage is in the `working` state. -/
def atMostOneWorking (stat : σ → AgentStatus) (s : List σ) : Bool :=
  decide ((s.filter fun a => decide (stat a = AgentStatus.working)).length ≤ 1)

/-- The set of `completed` stages is a prefix of the declaration order:
after the first non-completed stage no completed stage occurs. -/
def completedDownwardClosed (stat : σ → AgentStatus) (s : List σ) : Bool :=
  (s.dropWhile fun a => decide (stat a = AgentStatus.completed)).all
    fun a => decide (stat a ≠ AgentStatus.completed)

namespace RetentionAnalytics

/-- Interface `RetentionAgentProgress` of RetentionAnalytics.tsx. -/
structure RetentionAgentProgress where
  name : String
  displayName : String
  icon : String
  status : AgentStatus
  workingStatus : String
  doneStatus : String
  deriving DecidableEq, Repr

/-- The `retentionFacts` rotation list. -/
def retentionFacts : List String :=
  [ "AI analyzes 30+ behavioral signals per employee"
  , "Early intervention reduces turnover by up to 40%"
  , "Sentiment analysis processes feedback in real-time"
  , "Career path modeling considers 100+ growth trajectories"
  , "Compensation analysis benchmarks against 500+ market data points"
  , "Engagement scores correlate 85% with retention outcomes"
  , "Personalized interventions improve success rates by 3x"
  , "Predictive models achieve 92% accuracy on 90-day retention" ]

/-- The `initialAgentProgress` constant: five agents, all `waiting`. -/
def initialAgentProgress : List RetentionAgentProgress :=
  [ { name := "risk_analyst", displayName := "Retention Risk Analyst", icon := "AlertTriangle",
      status := .waiting, workingStatus := "Scanning behavioral patterns across employees...",
      doneStatus := "Identified high-risk employees" }
  , { name := "engagement_specialist", displayName := "Employee Engagement Specialist", icon := "Heart",
      status := .waiting, workingStatus := "Analyzing satisfaction metrics and engagement scores...",
      doneStatus := "Engagement analysis complete" }
  , { name := "career_strategist", displayName := "Career Development Strategist", icon := "TrendingUp",
      status := .waiting, workingStatus := "Evaluating growth opportunities and career paths...",
      doneStatus := "Career path analysis complete" }
  , { name := "compensation_analyst", displayName := "Compensation & Benefits Analyst", icon := "DollarSign",
      status := .waiting, workingStatus := "Comparing compensation to market benchmarks...",
      doneStatus := "Compensation gaps identified" }
  , { name := "chief_strategist", displayName := "Chief Retention Strategist", icon := "Brain",
      status := .waiting, workingStatus := "Synthesizing retention strategies and interventions...",
      doneStatus := "Personalized interventions generated" } ]

/-- Component state of `RetentionAnalytics`.  `ρ` is the opaque
`RetentionAnalysis` payload type.  The three timer refs are modelled by
the Boolean activity flags; `isAnimationRunning` is `isAnimationRunningRef`;
`commitCount` is a ghost counter incremented exactly when the commit branch
of the commit effect hands the payload over (it counts commit events and
influences nothing). -/
structure RetentionState (ρ : Type) where
  isAnalyzing : Bool
  retentionAnalysis : Option ρ
  elapsedTime : Nat
  currentFactIndex : Nat
  agentProgress : List RetentionAgentProgress
  showingAgentProgress : Bool
  pendingResult : Option ρ
  animationComplete : Bool
  isFinalizing : Bool
  isAnimationRunning : Bool
  agentTimerActive : Bool
  clockActive : Bool
  factActive : Bool
  commitCount : Nat
  deriving DecidableEq, Repr

/-- Initial component state (all useState initializers). -/
def retentionIdle (ρ : Type) : RetentionState ρ where
  isAnalyzing := false
  retentionAnalysis := none
  elapsedTime := 0
  currentFactIndex := 0
  agentProgress := initialAgentProgress
  showingAgentProgress := false
  pendingResult := none
  animationComplete := false
  isFinalizing := false
  isAnimationRunning := false
  agentTimerActive := false
  clockActive := false
  factActive := false
  commitCount := 0

/-- Synchronous state updates at the top of `runRetentionAnalysis`. -/
def runRetentionAnalysisEntry (s : RetentionState ρ) : RetentionState ρ :=
  { s with isAnalyzing := true, showingAgentProgress := true, pendingResult := none,
           animationComplete := false, isFinalizing := false }

/-- Response handler of `runRetentionAnalysis` when `response.success` is true. -/
def retentionRemoteSuccess (p : ρ) (s : RetentionState ρ) : RetentionState ρ :=
  { s with pendingResult := some p }

/-- Response handler when `response.success` is false: the code has no else
branch, so nothing happens. -/
def retentionRemoteEnvelopeFailure (s : RetentionState ρ) : RetentionState ρ :=
  s

/-- The catch handler of `runRetentionAnalysis`: log to console, hide the
progress panel, stop analyzing.  No error is stored in any state. -/
def retentionRemoteReject (s : RetentionState ρ) : RetentionState ρ :=
  { s with showingAgentProgress := false, isAnalyzing := false }

/-- The elapsed-time / fact-rotation effect body: while the progress panel
shows, reset the clock and run both intervals; otherwise clear them.
Its cleanup clears both intervals via the refs, which always hold the
current timers, so hiding the panel stops clock and facts at once. -/
def retentionTimerEffect (s : RetentionState ρ) : RetentionState ρ :=
  if s.showingAgentProgress then
    { s with elapsedTime := 0, clockActive := true, factActive := true }
  else
    { s with clockActive := false, factActive := false }

/-- One firing of the one-second interval. -/
def retentionTick (s : RetentionState ρ) : RetentionState ρ :=
  if s.clockActive then { s with elapsedTime := s.elapsedTime + 1 } else s

/-- One firing of the four-second fact interval. -/
def retentionFactTick (s : RetentionState ρ) : RetentionState ρ :=
  if s.factActive then
    { s with currentFactIndex := (s.currentFactIndex + 1) % retentionFacts.length }
  else s

/-- First half of a `runAgentSequence` step: stages before `i` completed,
stage `i` working, stages after `i` waiting. -/
def retentionAdvanceStart (i : Nat) (prev : List RetentionAgentProgress) :
    List RetentionAgentProgress :=
  mapWithIndex (fun idx a =>
    if idx < i then { a with status := .completed }
    else if idx = i then { a with status := .working }
    else { a with status := .waiting }) prev

/-- Second half of a `runAgentSequence` step, after the dwell timeout:
stages up to and including `i` completed, the rest untouched. -/
def retentionAdvanceFinish (i : Nat) (prev : List RetentionAgentProgress) :
    List RetentionAgentProgress :=
  mapWithIndex (fun idx a =>
    if idx ≤ i then { a with status := .completed } else a) prev

/-- Body of the animation effect: if the panel shows and no animation is
already running, set the reentrancy ref, clear the completion flag, reset
every stage to `waiting` and schedule the first `runAgentSequence` timeout. -/
def retentionAnimEffectBody (s : RetentionState ρ) : RetentionState ρ :=
  if s.showingAgentProgress && !s.isAnimationRunning then
    { s with isAnimationRunning := true, animationComplete := false,
             agentProgress := initialAgentProgress.map (fun a => { a with status := .waiting }),
             agentTimerActive := true }
  else s

/-- Cleanup of the animation effect.  `captured` is the value
`showingAgentProgress` had at the render that registered this cleanup (the
cleanup closure reads that stale value, not the current one): the pending
stage timeout is cleared and the reentrancy ref released only when a timer
is pending and the captured flag is false. -/
def retentionAnimCleanup (captured : Bool) (s : RetentionState ρ) : RetentionState ρ :=
  if s.agentTimerActive && !captured then
    { s with agentTimerActive := false, isAnimationRunning := false }
  else s

/-- The commit effect, dependencies `[animationComplete, pendingResult]`:
when both hold, hand the payload to `retentionAnalysis` and clear the run
state; when the animation finished but the result is still pending, show
the finalizing banner; otherwise do nothing. -/
def retentionCommitEffect (s : RetentionState ρ) : RetentionState ρ :=
  if s.animationComplete && s.pendingResult.isSome then
    { s with retentionAnalysis := s.pendingResult, pendingResult := none,
             animationComplete := false, isFinalizing := false,
             showingAgentProgress := false, isAnalyzing := false,
             commitCount := s.commitCount + 1 }
  else if s.animationComplete && !s.pendingResult.isSome then
    { s with isFinalizing := true }
  else s

/-- Effect of one animation callback on the component state.  The first
two keep a next timeout scheduled; the settle callback releases the
reentrancy ref and raises the completion signal, and schedules nothing. -/
def applyRetentionAnimEvent : AnimEvent → RetentionState ρ → RetentionState ρ
  | .advanceStart i, s => { s with agentProgress := retentionAdvanceStart i s.agentProgress }
  | .advanceFinish i, s => { s with agentProgress := retentionAdvanceFinish i s.agentProgress }
  | .signalComplete, s =>
      { s with isAnimationRunning := false, animationComplete := true, agentTimerActive := false }

/-- One `run()` invocation as React executes it: the synchronous entry
updates, then the re-run of the effects (timer effect, animation cleanup
registered while the panel was hidden, animation body). -/
def retentionRunStart (s : RetentionState ρ) : RetentionState ρ :=
  retentionAnimEffectBody (retentionAnimCleanup false (retentionTimerEffect (runRetentionAnalysisEntry s)))

/-- The remote-rejection path as React executes it: the catch handler hides
the panel, then the effects re-run; the animation cleanup that runs now was
registered while the panel was showing, so its captured flag is `true`. -/
def retentionRejectSequence (s : RetentionState ρ) : RetentionState ρ :=
  retentionAnimEffectBody (retentionAnimCleanup true (retentionTimerEffect (retentionRemoteReject s)))

/-- The stage-list updates of one full animation run, in firing order. -/
def retentionAnimUpdates : List (List RetentionAgentProgress → List RetentionAgentProgress) :=
  (List.range 5).flatMap fun i => [retentionAdvanceStart i, retentionAdvanceFinish i]

/-- All stage-list states visited during one animation run. -/
def retentionAnimStates : List (List RetentionAgentProgress) :=
  stateTrace (initialAgentProgress.map fun a => { a with status := AgentStatus.waiting })
    retentionAnimUpdates

/-- Timer schedule of one retention animation run: five stages, dwell `wt`. -/
def retentionAnimTimeline (wt : Nat → Nat) : List (Nat × AnimEvent) :=
  agentSequenceEvents wt 5

end RetentionAnalytics

namespace LearningPathway

/-- Interface `LearningAgentProgress` of LearningPathway.tsx. -/
structure LearningAgentProgress where
  name : String
  displayName : String
  status : AgentStatus
  workingStatus : String
  doneStatus : String
  deriving DecidableEq, Repr

/-- The `learningFacts` rotation list. -/
def learningFacts : List String :=
  [ "AI analyzes skill gaps based on role requirements"
  , "Personalized paths improve completion rates by 40%"
  , "Learning modules are sequenced for optimal retention"
  , "Career goals drive customized milestone planning"
  , "70-20-10 model: experience, coaching, formal training" ]

/-- The `initialAgentProgress` constant: three agents, all `waiting`. -/
def initialAgentProgress : List LearningAgentProgress :=
  [ { name := "skills_analyzer", displayName := "Skills Gap Analyst",
      status := .waiting, workingStatus := "Analyzing skill requirements for target role...",
      doneStatus := "Skill gaps identified" }
  , { name := "path_designer", displayName := "Learning Path Designer",
      status := .waiting, workingStatus := "Designing personalized learning modules...",
      doneStatus := "Learning path created" }
  , { name := "finalizer", displayName := "Finalizing Results",
      status := .waiting, workingStatus := "Preparing your personalized learning path...",
      doneStatus := "Results ready" } ]

/-- The `LearningPath` payload.  Of its many fields the coordination code
reads only `employee_id` (the key under which the commit effect stores the
path); the rest is abstracted into `payload`. -/
structure LearningPath (ρ : Type) where
  employee_id : String
  payload : ρ
  deriving DecidableEq, Repr

/-- Component state of `LearningPathway`.  The `learningPaths` record
(a JavaScript object keyed by employee id) is modelled as a function from
keys to optional paths.  `commitCount` is a ghost counter of commit events. -/
structure LearningState (ρ : Type) where
  isCreating : Bool
  learningPaths : String → Option (LearningPath ρ)
  showCreateModal : Bool
  showAgentProgress : Bool
  agentProgress : List LearningAgentProgress
  elapsedTime : Nat
  currentFactIndex : Nat
  pendingResult : Option (LearningPath ρ)
  animationComplete : Bool
  isAnimationRunning : Bool
  agentTimerActive : Bool
  clockActive : Bool
  factActive : Bool
  commitCount : Nat

/-- Initial component state. -/
def learningIdle (ρ : Type) : LearningState ρ where
  isCreating := false
  learningPaths := fun _ => none
  showCreateModal := false
  showAgentProgress := false
  agentProgress := initialAgentProgress
  elapsedTime := 0
  currentFactIndex := 0
  pendingResult := none
  animationComplete := false
  isAnimationRunning := false
  agentTimerActive := false
  clockActive := false
  factActive := false
  commitCount := 0

/-- Synchronous state updates at the top of `createLearningPath`. -/
def createLearningPathEntry (s : LearningState ρ) : LearningState ρ :=
  { s with isCreating := true, showAgentProgress := true, pendingResult := none,
           animationComplete := false }

/-- Response handler of `createLearningPath` when `response.success` is true. -/
def learningRemoteSuccess (p : LearningPath ρ) (s : LearningState ρ) : LearningState ρ :=
  { s with pendingResult := some p }

/-- Response handler when `response.success` is false: no else branch, nothing happens. -/
def learningRemoteEnvelopeFailure (s : LearningState ρ) : LearningState ρ :=
  s

/-- The catch handler of `createLearningPath`: log to console, hide the
progress panel, stop creating.  No error is stored in any state. -/
def learningRemoteReject (s : LearningState ρ) : LearningState ρ :=
  { s with showAgentProgress := false, isCreating := false }

/-- The elapsed-time / fact-rotation effect body. -/
def learningTimerEffect (s : LearningState ρ) : LearningState ρ :=
  if s.showAgentProgress then
    { s with elapsedTime := 0, clockActive := true, factActive := true }
  else
    { s with clockActive := false, factActive := false }

/-- One firing of the one-second interval. -/
def learningTick (s : LearningState ρ) : LearningState ρ :=
  if s.clockActive then { s with elapsedTime := s.elapsedTime + 1 } else s

/-- First half of a `runAgentSequence` step. -/
def learningAdvanceStart (i : Nat) (prev : List LearningAgentProgress) :
    List LearningAgentProgress :=
  mapWithIndex (fun idx a =>
    if idx < i then { a with status := .completed }
    else if idx = i then { a with status := .working }
    else { a with status := .waiting }) prev

/-- Second half of a `runAgentSequence` step, after the dwell timeout. -/
def learningAdvanceFinish (i : Nat) (prev : List LearningAgentProgress) :
    List LearningAgentProgress :=
  mapWithIndex (fun idx a =>
    if idx ≤ i then { a with status := .completed } else a) prev

/-- Body of the animation effect (reentrancy-guarded start). -/
def learningAnimEffectBody (s : LearningState ρ) : LearningState ρ :=
  if s.showAgentProgress && !s.isAnimationRunning then
    { s with isAnimationRunning := true, animationComplete := false,
             agentProgress := initialAgentProgress.map (fun a => { a with status := .waiting }),
             agentTimerActive := true }
  else s

/-- Cleanup of the animation effect; `captured` is the stale
`showAgentProgress` value the cleanup closure reads. -/
def learningAnimCleanup (captured : Bool) (s : LearningState ρ) : LearningState ρ :=
  if s.agentTimerActive && !captured then
    { s with agentTimerActive := false, isAnimationRunning := false }
  else s

/-- The commit effect: when the animation is complete and a result is
pending, store the path under its employee id and clear the run state;
there is no other branch (in particular no finalizing sub-state). -/
def learningCommitEffect (s : LearningState ρ) : LearningState ρ :=
  match s.animationComplete, s.pendingResult with
  | true, some p =>
      { s with learningPaths := fun k => if k = p.employee_id then some p else s.learningPaths k,
               pendingResult := none, animationComplete := false,
               showAgentProgress := false, showCreateModal := false, isCreating := false,
               commitCount := s.commitCount + 1 }
  | _, _ => s

/-- Effect of one animation callback on the component state. -/
def applyLearningAnimEvent : AnimEvent → LearningState ρ → LearningState ρ
  | .advanceStart i, s => { s with agentProgress := learningAdvanceStart i s.agentProgress }
  | .advanceFinish i, s => { s with agentProgress := learningAdvanceFinish i s.agentProgress }
  | .signalComplete, s =>
      { s with isAnimationRunning := false, animationComplete := true, agentTimerActive := false }

/-- One `run()` invocation as React executes it. -/
def learningRunStart (s : LearningState ρ) : LearningState ρ :=
  learningAnimEffectBody (learningAnimCleanup false (learningTimerEffect (createLearningPathEntry s)))

/-- The remote-rejection path as React executes it. -/
def learningRejectSequence (s : LearningState ρ) : LearningState ρ :=
  learningAnimEffectBody (learningAnimCleanup true (learningTimerEffect (learningRemoteReject s)))

/-- Backdrop click of the create-path modal:
`onClick=() => !showAgentProgress && setShowCreateModal(false)`. -/
def createPathModalBackdropClick (s : LearningState ρ) : LearningState ρ :=
  if !s.showAgentProgress then { s with showCreateModal := false } else s

/-- The stage-list updates of one full animation run, in firing order. -/
def learningAnimUpdates : List (List LearningAgentProgress → List LearningAgentProgress) :=
  (List.range 3).flatMap fun i => [learningAdvanceStart i, learningAdvanceFinish i]

/-- All stage-list states visited during one animation run. -/
def learningAnimStates : List (List LearningAgentProgress) :=
  stateTrace (initialAgentProgress.map fun a => { a with status := AgentStatus.waiting })
    learningAnimUpdates

/-- Timer schedule of one learning animation run: three stages, dwell `wt`. -/
def learningAnimTimeline (wt : Nat → Nat) : List (Nat × AnimEvent) :=
  agentSequenceEvents wt 3

end LearningPathway

namespace SentimentDashboard

/-- Interface `SentimentAgentProgress` of SentimentDashboard.tsx. -/
structure SentimentAgentProgress where
  name : String
  displayName : String
  icon : String
  status : AgentStatus
  workingStatus : String
  doneStatus : String
  deriving DecidableEq, Repr

/-- The `sentimentFacts` rotation list. -/
def sentimentFacts : List String :=
  [ "AI analyzes communication patterns, workload, and feedback"
  , "Early sentiment detection reduces turnover by up to 35%"
  , "Department-level analysis identifies systemic issues"
  , "Real-time insights enable proactive interventions"
  , "Sentiment trends correlate 89% with retention outcomes" ]

/-- The `initialAgentProgress` constant: four agents, all `waiting`. -/
def initialAgentProgress : List SentimentAgentProgress :=
  [ { name := "sentiment_analyst", displayName := "Sentiment Analyst", icon := "Search",
      status := .waiting, workingStatus := "Analyzing department sentiment patterns...",
      doneStatus := "Sentiment analysis complete" }
  , { name := "root_cause_analyzer", displayName := "Root Cause Analyzer", icon := "AlertCircle",
      status := .waiting, workingStatus := "Identifying underlying factors...",
      doneStatus := "Root causes identified" }
  , { name := "strategy_generator", displayName := "Strategy Generator", icon := "Zap",
      status := .waiting, workingStatus := "Generating intervention recommendations...",
      doneStatus := "Recommendations ready" }
  , { name := "finalizer", displayName := "Finalizing Results", icon := "Zap",
      status := .waiting, workingStatus := "Preparing your analysis results...",
      doneStatus := "Results ready" } ]

/-- Component state of `SentimentDashboard`.  `ρ` is the opaque
`CellInsight` payload type; `commitCount` is a ghost counter of commit
events. -/
structure SentimentState (ρ : Type) where
  selectedCell : Option (String × Nat)
  cellInsight : Option ρ
  loadingInsight : Bool
  showAgentProgress : Bool
  agentProgress : List SentimentAgentProgress
  elapsedTime : Nat
  currentFactIndex : Nat
  pendingResult : Option ρ
  animationComplete : Bool
  isAnimationRunning : Bool
  agentTimerActive : Bool
  clockActive : Bool
  factActive : Bool
  commitCount : Nat
  deriving DecidableEq, Repr

/-- Initial component state. -/
def sentimentIdle (ρ : Type) : SentimentState ρ where
  selectedCell := none
  cellInsight := none
  loadingInsight := false
  showAgentProgress := false
  agentProgress := initialAgentProgress
  elapsedTime := 0
  currentFactIndex := 0
  pendingResult := none
  animationComplete := false
  isAnimationRunning := false
  agentTimerActive := false
  clockActive := false
  factActive := false
  commitCount := 0

/-- Synchronous state updates at the top of `handleCellClick`. -/
def handleCellClickEntry (dept : String) (weekIndex : Nat) (s : SentimentState ρ) :
    SentimentState ρ :=
  { s with selectedCell := some (dept, weekIndex), loadingInsight := true, cellInsight := none,
           pendingResult := none, animationComplete := false, showAgentProgress := true }

/-- Response handler of `handleCellClick` when `response.success` is true. -/
def sentimentRemoteSuccess (p : ρ) (s : SentimentState ρ) : SentimentState ρ :=
  { s with pendingResult := some p }

/-- Response handler when `response.success` is false: no else branch, nothing happens. -/
def sentimentRemoteEnvelopeFailure (s : SentimentState ρ) : SentimentState ρ :=
  s

/-- The catch handler of `handleCellClick`: log to console, hide the
progress panel, stop loading.  No error is stored in any state. -/
def sentimentRemoteReject (s : SentimentState ρ) : SentimentState ρ :=
  { s with showAgentProgress := false, loadingInsight := false }

/-- The elapsed-time / fact-rotation effect body. -/
def sentimentTimerEffect (s : SentimentState ρ) : SentimentState ρ :=
  if s.showAgentProgress then
    { s with elapsedTime := 0, clockActive := true, factActive := true }
  else
    { s with clockActive := false, factActive := false }

/-- One firing of the one-second interval. -/
def sentimentTick (s : SentimentState ρ) : SentimentState ρ :=
  if s.clockActive then { s with elapsedTime := s.elapsedTime + 1 } else s

/-- First half of a `runAgentSequence` step. -/
def sentimentAdvanceStart (i : Nat) (prev : List SentimentAgentProgress) :
    List SentimentAgentProgress :=
  mapWithIndex (fun idx a =>
    if idx < i then { a with status := .completed }
    else if idx = i then { a with status := .working }
    else { a with status := .waiting }) prev

/-- Second half of a `runAgentSequence` step, after the dwell timeout. -/
def sentimentAdvanceFinish (i : Nat) (prev : List SentimentAgentProgress) :
    List SentimentAgentProgress :=
  mapWithIndex (fun idx a =>
    if idx ≤ i then { a with status := .completed } else a) prev

/-- Body of the animation effect (reentrancy-guarded start). -/
def sentimentAnimEffectBody (s : SentimentState ρ) : SentimentState ρ :=
  if s.showAgentProgress && !s.isAnimationRunning then
    { s with isAnimationRunning := true, animationComplete := false,
             agentProgress := initialAgentProgress.map (fun a => { a with status := .waiting }),
             agentTimerActive := true }
  else s

/-- Cleanup of the animation effect; `captured` is the stale
`showAgentProgress` value the cleanup closure reads. -/
def sentimentAnimCleanup (captured : Bool) (s : SentimentState ρ) : SentimentState ρ :=
  if s.agentTimerActive && !captured then
    { s with agentTimerActive := false, isAnimationRunning := false }
  else s

/-- The commit effect: when the animation is complete and a result is
pending, hand the payload to `cellInsight` and clear the run state; there
is no other branch (in particular no finalizing sub-state). -/
def sentimentCommitEffect (s : SentimentState ρ) : SentimentState ρ :=
  if s.animationComplete && s.pendingResult.isSome then
    { s with cellInsight := s.pendingResult, pendingResult := none,
             animationComplete := false, showAgentProgress := false, loadingInsight := false,
             commitCount := s.commitCount + 1 }
  else s

/-- Effect of one animation callback on the component state. -/
def applySentimentAnimEvent : AnimEvent → SentimentState ρ → SentimentState ρ
  | .advanceStart i, s => { s with agentProgress := sentimentAdvanceStart i s.agentProgress }
  | .advanceFinish i, s => { s with agentProgress := sentimentAdvanceFinish i s.agentProgress }
  | .signalComplete, s =>
      { s with isAnimationRunning := false, animationComplete := true, agentTimerActive := false }

/-- One `run()` invocation (a heat-map cell click) as React executes it. -/
def sentimentRunStart (dept : String) (weekIndex : Nat) (s : SentimentState ρ) :
    SentimentState ρ :=
  sentimentAnimEffectBody (sentimentAnimCleanup false
    (sentimentTimerEffect (handleCellClickEntry dept weekIndex s)))

/-- The remote-rejection path as React executes it. -/
def sentimentRejectSequence (s : SentimentState ρ) : SentimentState ρ :=
  sentimentAnimEffectBody (sentimentAnimCleanup true (sentimentTimerEffect (sentimentRemoteReject s)))

/-- Backdrop click of the insight modal: the selection and insight are
cleared only when no agent progress is showing. -/
def insightModalBackdropClick (s : SentimentState ρ) : SentimentState ρ :=
  if !s.showAgentProgress then { s with selectedCell := none, cellInsight := none } else s

/-- The stage-list updates of one full animation run, in firing order. -/
def sentimentAnimUpdates : List (List SentimentAgentProgress → List SentimentAgentProgress) :=
  (List.range 4).flatMap fun i => [sentimentAdvanceStart i, sentimentAdvanceFinish i]

/-- All stage-list states visited during one animation run. -/
def sentimentAnimStates : List (List SentimentAgentProgress) :=
  stateTrace (initialAgentProgress.map fun a => { a with status := AgentStatus.waiting })
    sentimentAnimUpdates

/-- Timer schedule of one sentiment animation run: four stages, dwell `wt`. -/
def sentimentAnimTimeline (wt : Nat → Nat) : List (Nat × AnimEvent) :=
  agentSequenceEvents wt 4

end SentimentDashboard

namespace SchedulingDashboard

/-- One WebSocket `agent_update` message as consumed by `handleAgentUpdate`. -/
structure AgentUpdate where
  agent : String
  status : String
  decision : Option String
  deriving DecidableEq, Repr

/-- Interface `AgentProgress` of SchedulingDashboard.tsx. -/
structure AgentProgress where
  name : String
  displayName : String
  status : AgentStatus
  decision : String
  deriving DecidableEq, Repr

/-- The list built by `resetAgentProgress`. -/
def resetAgentProgressList : List AgentProgress :=
  [ { name := "demand_forecaster", displayName := "Demand Forecaster",
      status := .waiting, decision := "Waiting to start..." }
  , { name := "staff_optimizer", displayName := "Staff Optimizer",
      status := .waiting, decision := "Waiting for demand forecast..." }
  , { name := "cost_analyst", displayName := "Cost Analyst",
      status := .waiting, decision := "Waiting for schedule..." }
  , { name := "compliance_checker", displayName := "Compliance Checker",
      status := .waiting, decision := "Waiting to verify..." }
  , { name := "quality_auditor", displayName := "Quality Auditor",
      status := .waiting, decision := "Waiting for final review..." } ]

/-- The `handleAgentUpdate` WebSocket handler: the named agent's status
becomes `completed` when the update says so and `working` otherwise, and
its decision text is replaced when the update carries one. -/
def handleAgentUpdate (update : AgentUpdate) (prev : List AgentProgress) : List AgentProgress :=
  prev.map fun agent =>
    if agent.name = update.agent then
      { agent with
          status := if update.status = "completed" then AgentStatus.completed else AgentStatus.working,
          decision := update.decision.getD agent.decision }
    else agent

/-- Component state of `SchedulingDashboard`.  `ρ` is the opaque
`OptimizationResult` payload type.  This dashboard has no pending-result
slot, no animation-complete flag and no commit effect. -/
structure SchedulingState (ρ : Type) where
  isOptimizing : Bool
  optimizationResult : Option ρ
  agentUpdates : List AgentUpdate
  agentProgress : List AgentProgress
  elapsedTime : Nat
  currentFactIndex : Nat
  deriving DecidableEq, Repr

/-- Initial component state. -/
def schedulingIdle (ρ : Type) : SchedulingState ρ where
  isOptimizing := false
  optimizationResult := none
  agentUpdates := []
  agentProgress := resetAgentProgressList
  elapsedTime := 0
  currentFactIndex := 0

/-- Synchronous state updates at the top of `runOptimization`. -/
def runOptimizationEntry (s : SchedulingState ρ) : SchedulingState ρ :=
  { s with isOptimizing := true, optimizationResult := none, agentUpdates := [],
           agentProgress := resetAgentProgressList }

/-- Response handler of `runOptimization` when `response.success` is true:
the payload is written straight into `optimizationResult`, the slot the UI
renders, with no commit gate. -/
def runOptimizationSuccess (p : ρ) (s : SchedulingState ρ) : SchedulingState ρ :=
  { s with optimizationResult := some p }

/-- Arrival of one WebSocket agent update. -/
def applyAgentUpdate (u : AgentUpdate) (s : SchedulingState ρ) : SchedulingState ρ :=
  { s with agentUpdates := s.agentUpdates ++ [u],
           agentProgress := handleAgentUpdate u s.agentProgress }

end SchedulingDashboard

namespace RetentionAnalytics

/-- Interleaving where the remote resolves first: state after run start,
the successful response, and the commit check, with the animation still
running. -/
def remoteFirstMid (ρ : Type) (p : ρ) : RetentionState ρ :=
  retentionCommitEffect (retentionRemoteSuccess p (retentionRunStart (retentionIdle ρ)))

/-- Remote-first interleaving after the settle signal and its commit check. -/
def remoteFirstDone (ρ : Type) (p : ρ) : RetentionState ρ :=
  retentionCommitEffect (applyRetentionAnimEvent .signalComplete (remoteFirstMid ρ p))

/-- Interleaving where the animation finishes first: state after run start,
the settle signal, and the commit check, with the remote still pending. -/
def animFirstMid (ρ : Type) : RetentionState ρ :=
  retentionCommitEffect (applyRetentionAnimEvent .signalComplete (retentionRunStart (retentionIdle ρ)))

/-- Animation-first interleaving after the remote response and its commit check. -/
def animFirstDone (ρ : Type) (p : ρ) : RetentionState ρ :=
  retentionCommitEffect (retentionRemoteSuccess p (animFirstMid ρ))

/-- Run in which the backend answered with a non-success envelope during
the animation, after which the animation ran to completion: run start,
envelope failure (a no-op) with its commit check, settle signal with its
commit check. -/
def envelopeFailureRun : RetentionState Nat :=
  retentionCommitEffect (applyRetentionAnimEvent .signalComplete
    (retentionCommitEffect (retentionRemoteEnvelopeFailure (retentionRunStart (retentionIdle Nat)))))

/-- Cancellation scenario, step 1: run started and the first stage has
begun working; the dwell timeout for stage 0 is pending. -/
def cancelScenarioMid : RetentionState Nat :=
  applyRetentionAnimEvent (.advanceStart 0) (retentionRunStart (retentionIdle Nat))

/-- Cancellation scenario, step 2: the run is cancelled via the rejection
path (the progress flag goes false and the effects re-run). -/
def cancelScenarioCancelled : RetentionState Nat :=
  retentionRejectSequence cancelScenarioMid

/-- Cancellation scenario, step 3: the still-pending stage-0 dwell timeout
fires after the cancellation. -/
def cancelScenarioStaleFire : RetentionState Nat :=
  applyRetentionAnimEvent (.advanceFinish 0) cancelScenarioCancelled

/-- Cancellation scenario, step 4: a subsequent run is started from the
cancelled state. -/
def cancelScenarioRestart : RetentionState Nat :=
  retentionRunStart cancelScenarioCancelled

end RetentionAnalytics

namespace LearningPathway

/-- Remote-first interleaving: run start, successful response, commit check. -/
def learningRemoteFirstMid (ρ : Type) (q : LearningPath ρ) : LearningState ρ :=
  learningCommitEffect (learningRemoteSuccess q (learningRunStart (learningIdle ρ)))

/-- Remote-first interleaving after the settle signal and its commit check. -/
def learningRemoteFirstDone (ρ : Type) (q : LearningPath ρ) : LearningState ρ :=
  learningCommitEffect (applyLearningAnimEvent .signalComplete (learningRemoteFirstMid ρ q))

/-- Animation-first interleaving: state right after the settle signal,
before the commit check runs. -/
def learningAnimFirstRaw (ρ : Type) : LearningState ρ :=
  applyLearningAnimEvent .signalComplete (learningRunStart (learningIdle ρ))

/-- Animation-first interleaving after the commit check that follows the
settle signal (the remote is still pending). -/
def learningAnimFirstMid (ρ : Type) : LearningState ρ :=
  learningCommitEffect (learningAnimFirstRaw ρ)

/-- Animation-first interleaving after the remote response and its commit check. -/
def learningAnimFirstDone (ρ : Type) (q : LearningPath ρ) : LearningState ρ :=
  learningCommitEffect (learningRemoteSuccess q (learningAnimFirstMid ρ))

end LearningPathway

namespace SentimentDashboard

/-- Remote-first interleaving: cell click, successful response, commit check. -/
def sentimentRemoteFirstMid (ρ : Type) (dept : String) (w : Nat) (p : ρ) : SentimentState ρ :=
  sentimentCommitEffect (sentimentRemoteSuccess p (sentimentRunStart dept w (sentimentIdle ρ)))

/-- Remote-first interleaving after the settle signal and its commit check. -/
def sentimentRemoteFirstDone (ρ : Type) (dept : String) (w : Nat) (p : ρ) : SentimentState ρ :=
  sentimentCommitEffect (applySentimentAnimEvent .signalComplete (sentimentRemoteFirstMid ρ dept w p))

/-- Animation-first interleaving: state right after the settle signal,
before the commit check runs. -/
def sentimentAnimFirstRaw (ρ : Type) (dept : String) (w : Nat) : SentimentState ρ :=
  applySentimentAnimEvent .signalComplete (sentimentRunStart dept w (sentimentIdle ρ))

/-- Animation-first interleaving after the commit check that follows the
settle signal (the remote is still pending). -/
def sentimentAnimFirstMid (ρ : Type) (dept : String) (w : Nat) : SentimentState ρ :=
  sentimentCommitEffect (sentimentAnimFirstRaw ρ dept w)

/-- Animation-first interleaving after the remote response and its commit check. -/
def sentimentAnimFirstDone (ρ : Type) (dept : String) (w : Nat) (p : ρ) : SentimentState ρ :=
  sentimentCommitEffect (sentimentRemoteSuccess p (sentimentAnimFirstMid ρ dept w))

/-- Reentrancy scenario, step 1: a cell click whose remote has already
resolved (pending result committed to neither slot yet, animation still
running). -/
def firstClickResolved : SentimentState Nat :=
  sentimentCommitEffect (sentimentRemoteSuccess 42 (sentimentRunStart "Electronics" 1 (sentimentIdle Nat)))

/-- Reentrancy scenario, step 2: a second cell click arrives while the
first run is still in flight (entry updates plus the guarded animation
effect body). -/
def secondClickState : SentimentState Nat :=
  sentimentAnimEffectBody (handleCellClickEntry "Pharmacy" 0 firstClickResolved)

end SentimentDashboard

/-- C1: in each of the three stage-animated dashboards (RetentionAnalytics
runRetentionAnalysis, LearningPathway createLearningPath, SentimentDashboard
handleCellClick), the remote payload reaches the rendered result slot only
once both the remote call has resolved (pendingResult set) and the
animation has signalled completion (animationComplete), and in both
interleavings - remote first or animation first - exactly one commit
occurs: none before both prerequisites hold, one when they do, and a
redundant re-run of the commit check afterwards changes nothing. -/
theorem claim_C1_commit_both_interleavings_once (ρ : Type) (p : ρ)
    (q : LearningPathway.LearningPath ρ) (dept : String) (w : Nat) :
    (RetentionAnalytics.remoteFirstMid ρ p).retentionAnalysis = none ∧
    (RetentionAnalytics.remoteFirstMid ρ p).commitCount = 0 ∧
    (RetentionAnalytics.remoteFirstDone ρ p).retentionAnalysis = some p ∧
    (RetentionAnalytics.remoteFirstDone ρ p).commitCount = 1 ∧
    RetentionAnalytics.retentionCommitEffect (RetentionAnalytics.remoteFirstDone ρ p) =
      RetentionAnalytics.remoteFirstDone ρ p ∧
    (RetentionAnalytics.animFirstMid ρ).retentionAnalysis = none ∧
    (RetentionAnalytics.animFirstMid ρ).commitCount = 0 ∧
    (RetentionAnalytics.animFirstDone ρ p).retentionAnalysis = some p ∧
    (RetentionAnalytics.animFirstDone ρ p).commitCount = 1 ∧
    RetentionAnalytics.retentionCommitEffect (RetentionAnalytics.animFirstDone ρ p) =
      RetentionAnalytics.animFirstDone ρ p ∧
    (LearningPathway.learningRemoteFirstMid ρ q).learningPaths q.employee_id = none ∧
    (LearningPathway.learningRemoteFirstMid ρ q).commitCount = 0 ∧
    (LearningPathway.learningRemoteFirstDone ρ q).learningPaths q.employee_id = some q ∧
    (LearningPathway.learningRemoteFirstDone ρ q).commitCount = 1 ∧
    LearningPathway.learningCommitEffect (LearningPathway.learningRemoteFirstDone ρ q) =
      LearningPathway.learningRemoteFirstDone ρ q ∧
    (LearningPathway.learningAnimFirstMid ρ).commitCount = 0 ∧
    (LearningPathway.learningAnimFirstDone ρ q).learningPaths q.employee_id = some q ∧
    (LearningPathway.learningAnimFirstDone ρ q).commitCount = 1 ∧
    LearningPathway.learningCommitEffect (LearningPathway.learningAnimFirstDone ρ q) =
      LearningPathway.learningAnimFirstDone ρ q ∧
    (SentimentDashboard.sentimentRemoteFirstMid ρ dept w p).cellInsight = none ∧
    (SentimentDashboard.sentimentRemoteFirstMid ρ dept w p).commitCount = 0 ∧
    (SentimentDashboard.sentimentRemoteFirstDone ρ dept w p).cellInsight = some p ∧
    (SentimentDashboard.sentimentRemoteFirstDone ρ dept w p).commitCount = 1 ∧
    SentimentDashboard.sentimentCommitEffect (SentimentDashboard.sentimentRemoteFirstDone ρ dept w p) =
      SentimentDashboard.sentimentRemoteFirstDone ρ dept w p ∧
    (SentimentDashboard.sentimentAnimFirstMid ρ dept w).cellInsight = none ∧
    (SentimentDashboard.sentimentAnimFirstMid ρ dept w).commitCount = 0 ∧
    (SentimentDashboard.sentimentAnimFirstDone ρ dept w p).cellInsight = some p ∧
    (SentimentDashboard.sentimentAnimFirstDone ρ dept w p).commitCount = 1 ∧
    SentimentDashboard.sentimentCommitEffect (SentimentDashboard.sentimentAnimFirstDone ρ dept w p) =
      SentimentDashboard.sentimentAnimFirstDone ρ dept w p := by
  and_intros <;>
    first
      | rfl
      | simp [LearningPathway.learningRemoteFirstDone, LearningPathway.learningRemoteFirstMid,
              LearningPathway.learningAnimFirstDone, LearningPathway.learningAnimFirstMid,
              LearningPathway.learningAnimFirstRaw, LearningPathway.learningCommitEffect,
              LearningPathway.learningRemoteSuccess, LearningPathway.learningRunStart,
              LearningPathway.learningAnimEffectBody, LearningPathway.learningAnimCleanup,
              LearningPathway.learningTimerEffect, LearningPathway.createLearningPathEntry,
              LearningPathway.learningIdle, LearningPathway.applyLearningAnimEvent]

/-- C2 counterexample: SchedulingDashboard's runOptimization response
handler writes the payload straight into optimizationResult - the slot the
UI renders - while an agent stage is still in the working state, with no
commit gate in between; the four-dashboard invariant claimed is therefore
false. -/
theorem claim_C2_counterexample_scheduling_direct_write :
    ((SchedulingDashboard.applyAgentUpdate
        { agent := "demand_forecaster", status := "in_progress", decision := some "Forecasting demand..." }
        (SchedulingDashboard.runOptimizationEntry (SchedulingDashboard.schedulingIdle Nat))).agentProgress.any
      (fun a => decide (a.status = AgentStatus.working))) = true ∧
    (SchedulingDashboard.applyAgentUpdate
        { agent := "demand_forecaster", status := "in_progress", decision := some "Forecasting demand..." }
        (SchedulingDashboard.runOptimizationEntry (SchedulingDashboard.schedulingIdle Nat))).optimizationResult = none ∧
    (SchedulingDashboard.runOptimizationSuccess 42
        (SchedulingDashboard.applyAgentUpdate
          { agent := "demand_forecaster", status := "in_progress", decision := some "Forecasting demand..." }
          (SchedulingDashboard.runOptimizationEntry (SchedulingDashboard.schedulingIdle Nat)))).optimizationResult = some 42 ∧
    ((SchedulingDashboard.runOptimizationSuccess 42
        (SchedulingDashboard.applyAgentUpdate
          { agent := "demand_forecaster", status := "in_progress", decision := some "Forecasting demand..." }
          (SchedulingDashboard.runOptimizationEntry (SchedulingDashboard.schedulingIdle Nat)))).agentProgress.any
      (fun a => decide (a.status = AgentStatus.working))) = true := by
  decide

/-- C2 amended: in the three stage-animated dashboards the rendered result
slot is never assigned by the remote response handler (it only fills
pendingResult) and the commit check leaves the slot untouched while the
animation has not completed; SchedulingDashboard, by contrast, has no gate
at all (see the counterexample). -/
theorem claim_C2_commit_gate_three_dashboards (ρ : Type) (p : ρ)
    (q : LearningPathway.LearningPath ρ)
    (sR : RetentionAnalytics.RetentionState ρ) (sL : LearningPathway.LearningState ρ)
    (sS : SentimentDashboard.SentimentState ρ)
    (hR : sR.animationComplete = false) (hL : sL.animationComplete = false)
    (hS : sS.animationComplete = false) :
    (RetentionAnalytics.retentionRemoteSuccess p sR).retentionAnalysis = sR.retentionAnalysis ∧
    (LearningPathway.learningRemoteSuccess q sL).learningPaths = sL.learningPaths ∧
    (SentimentDashboard.sentimentRemoteSuccess p sS).cellInsight = sS.cellInsight ∧
    (RetentionAnalytics.retentionCommitEffect sR).retentionAnalysis = sR.retentionAnalysis ∧
    (LearningPathway.learningCommitEffect sL).learningPaths = sL.learningPaths ∧
    (SentimentDashboard.sentimentCommitEffect sS).cellInsight = sS.cellInsight := by
  refine ⟨rfl, rfl, rfl, ?_, ?_, ?_⟩
  · simp [RetentionAnalytics.retentionCommitEffect, hR]
  · cases hp : sL.pendingResult <;>
      simp [LearningPathway.learningCommitEffect, hL, hp]
  · simp [SentimentDashboard.sentimentCommitEffect, hS]

/-- C2 witness: the amended gate theorem applied at the idle states of the
three dashboards with a concrete payload. -/
theorem claim_C2_commit_gate_witness :
    (RetentionAnalytics.retentionRemoteSuccess 7 (RetentionAnalytics.retentionIdle Nat)).retentionAnalysis =
      (RetentionAnalytics.retentionIdle Nat).retentionAnalysis ∧
    (LearningPathway.learningRemoteSuccess { employee_id := "emp_001", payload := 7 }
        (LearningPathway.learningIdle Nat)).learningPaths = (LearningPathway.learningIdle Nat).learningPaths ∧
    (SentimentDashboard.sentimentRemoteSuccess 7 (SentimentDashboard.sentimentIdle Nat)).cellInsight =
      (SentimentDashboard.sentimentIdle Nat).cellInsight ∧
    (RetentionAnalytics.retentionCommitEffect (RetentionAnalytics.retentionIdle Nat)).retentionAnalysis =
      (RetentionAnalytics.retentionIdle Nat).retentionAnalysis ∧
    (LearningPathway.learningCommitEffect (LearningPathway.learningIdle Nat)).learningPaths =
      (LearningPathway.learningIdle Nat).learningPaths ∧
    (SentimentDashboard.sentimentCommitEffect (SentimentDashboard.sentimentIdle Nat)).cellInsight =
      (SentimentDashboard.sentimentIdle Nat).cellInsight :=
  claim_C2_commit_gate_three_dashboards Nat 7 { employee_id := "emp_001", payload := 7 }
    (RetentionAnalytics.retentionIdle Nat) (LearningPathway.learningIdle Nat)
    (SentimentDashboard.sentimentIdle Nat) rfl rfl rfl

/-- C3 counterexample: when the backend answers with a non-success envelope
(response.success false) during a RetentionAnalytics run, nothing is done
with the failure - the run never aborts.  After the animation completes, the
progress panel is still rendered (showingAgentProgress true), the run is
stuck in the finalizing banner (isFinalizing true), the analyze button state
is still busy (isAnalyzing true), and no result was committed - contradicting
the claim that the failure is surfaced, the animation aborted, and the UI
reset to a re-triggerable idle state. -/
theorem claim_C3_counterexample_envelope_failure_sticks :
    RetentionAnalytics.envelopeFailureRun.showingAgentProgress = true ∧
    RetentionAnalytics.envelopeFailureRun.isFinalizing = true ∧
    RetentionAnalytics.envelopeFailureRun.isAnalyzing = true ∧
    RetentionAnalytics.envelopeFailureRun.retentionAnalysis = none ∧
    RetentionAnalytics.envelopeFailureRun.commitCount = 0 := by
  decide

/-- C3 amended: only the rejection path (the catch handler) aborts the run:
it hides the progress panel, clears the busy flag and stops the clock and
fact timers, leaving the committed slot untouched so the action can be
retried - but the error is only logged to the console (neither component has
any error state to render), and a non-success envelope is silently ignored,
leaving the progress panel rendered indefinitely (see the counterexample). -/
theorem claim_C3_reject_path_resets (ρ : Type)
    (sR : RetentionAnalytics.RetentionState ρ) (sS : SentimentDashboard.SentimentState ρ) :
    (RetentionAnalytics.retentionRejectSequence sR).showingAgentProgress = false ∧
    (RetentionAnalytics.retentionRejectSequence sR).isAnalyzing = false ∧
    (RetentionAnalytics.retentionRejectSequence sR).clockActive = false ∧
    (RetentionAnalytics.retentionRejectSequence sR).factActive = false ∧
    (RetentionAnalytics.retentionRejectSequence sR).retentionAnalysis = sR.retentionAnalysis ∧
    (SentimentDashboard.sentimentRejectSequence sS).showAgentProgress = false ∧
    (SentimentDashboard.sentimentRejectSequence sS).loadingInsight = false ∧
    (SentimentDashboard.sentimentRejectSequence sS).clockActive = false ∧
    (SentimentDashboard.sentimentRejectSequence sS).factActive = false ∧
    (SentimentDashboard.sentimentRejectSequence sS).cellInsight = sS.cellInsight := by
  cases hR : sR.agentTimerActive <;> cases hS : sS.agentTimerActive <;>
    and_intros <;>
      simp [RetentionAnalytics.retentionRejectSequence, RetentionAnalytics.retentionRemoteReject,
            RetentionAnalytics.retentionTimerEffect, RetentionAnalytics.retentionAnimCleanup,
            RetentionAnalytics.retentionAnimEffectBody,
            SentimentDashboard.sentimentRejectSequence, SentimentDashboard.sentimentRemoteReject,
            SentimentDashboard.sentimentTimerEffect, SentimentDashboard.sentimentAnimCleanup,
            SentimentDashboard.sentimentAnimEffectBody, hR, hS]

/-- C4 counterexample: SchedulingDashboard's handleAgentUpdate maps any
non-completed update status to working, so an update arriving after an
agent completed regresses that agent from completed back to working -
refuting the claim that within a run a completed stage is never set back to
working. -/
theorem claim_C4_counterexample_scheduling_regression :
    ((SchedulingDashboard.handleAgentUpdate
        { agent := "demand_forecaster", status := "completed", decision := none }
        SchedulingDashboard.resetAgentProgressList).head?.map (fun a => a.status)) =
      some AgentStatus.completed ∧
    ((SchedulingDashboard.handleAgentUpdate
        { agent := "demand_forecaster", status := "in_progress", decision := some "Re-checking forecast..." }
        (SchedulingDashboard.handleAgentUpdate
          { agent := "demand_forecaster", status := "completed", decision := none }
          SchedulingDashboard.resetAgentProgressList)).head?.map (fun a => a.status)) =
      some AgentStatus.working := by
  decide

/-- C4 amended: in the three timer-driven dashboards every stage-list state
visited during a run advances monotonically (waiting, then working, then
completed, never backwards), stages complete in declaration order (the
completed stages always form a prefix), and at most one stage is working at
a time; SchedulingDashboard's WebSocket-driven handleAgentUpdate gives no
such guarantee (see the counterexample). -/
theorem claim_C4_stage_monotonicity_timer_dashboards :
    traceMonotone (fun a => a.status) RetentionAnalytics.retentionAnimStates = true ∧
    RetentionAnalytics.retentionAnimStates.all (atMostOneWorking (fun a => a.status)) = true ∧
    RetentionAnalytics.retentionAnimStates.all (completedDownwardClosed (fun a => a.status)) = true ∧
    traceMonotone (fun a => a.status) LearningPathway.learningAnimStates = true ∧
    LearningPathway.learningAnimStates.all (atMostOneWorking (fun a => a.status)) = true ∧
    LearningPathway.learningAnimStates.all (completedDownwardClosed (fun a => a.status)) = true ∧
    traceMonotone (fun a => a.status) SentimentDashboard.sentimentAnimStates = true ∧
    SentimentDashboard.sentimentAnimStates.all (atMostOneWorking (fun a => a.status)) = true ∧
    SentimentDashboard.sentimentAnimStates.all (completedDownwardClosed (fun a => a.status)) = true := by
  decide

/-- C5 counterexample: a second handleCellClick while a run is in flight is
not a no-op.  With the first run's remote already resolved (pendingResult
holding the payload), the second invocation wipes pendingResult, changes the
selected cell, and thus changes the in-flight run's observable state. -/
theorem claim_C5_counterexample_second_run_clears_pending :
    SentimentDashboard.firstClickResolved.pendingResult = some 42 ∧
    SentimentDashboard.secondClickState.pendingResult = none ∧
    SentimentDashboard.secondClickState.selectedCell = some ("Pharmacy", 0) ∧
    SentimentDashboard.secondClickState ≠ SentimentDashboard.firstClickResolved := by
  decide

/-- C5 amended: a second handleCellClick while the animation is running
never starts a second stage animation - the isAnimationRunningRef guard
leaves the stage list, the running flag and the pending stage timer
untouched - but it is not a full no-op: it re-runs the entry resets
(pendingResult and animationComplete cleared, the clicked cell selected)
and issues a second remote request. -/
theorem claim_C5_reentrant_run_no_second_animation (ρ : Type) (dept : String) (w : Nat)
    (s : SentimentDashboard.SentimentState ρ) (h : s.isAnimationRunning = true) :
    (SentimentDashboard.sentimentAnimEffectBody
        (SentimentDashboard.handleCellClickEntry dept w s)).agentProgress = s.agentProgress ∧
    (SentimentDashboard.sentimentAnimEffectBody
        (SentimentDashboard.handleCellClickEntry dept w s)).isAnimationRunning = true ∧
    (SentimentDashboard.sentimentAnimEffectBody
        (SentimentDashboard.handleCellClickEntry dept w s)).agentTimerActive = s.agentTimerActive ∧
    (SentimentDashboard.sentimentAnimEffectBody
        (SentimentDashboard.handleCellClickEntry dept w s)).pendingResult = none ∧
    (SentimentDashboard.sentimentAnimEffectBody
        (SentimentDashboard.handleCellClickEntry dept w s)).animationComplete = false ∧
    (SentimentDashboard.sentimentAnimEffectBody
        (SentimentDashboard.handleCellClickEntry dept w s)).selectedCell = some (dept, w) := by
  and_intros <;>
    simp [SentimentDashboard.sentimentAnimEffectBody, SentimentDashboard.handleCellClickEntry, h]

/-- C5 witness: the reentrancy theorem applied to the concrete in-flight
state whose remote has already resolved. -/
theorem claim_C5_reentrant_run_witness :
    (SentimentDashboard.sentimentAnimEffectBody
        (SentimentDashboard.handleCellClickEntry "Pharmacy" 0
          SentimentDashboard.firstClickResolved)).agentProgress =
      SentimentDashboard.firstClickResolved.agentProgress ∧
    (SentimentDashboard.sentimentAnimEffectBody
        (SentimentDashboard.handleCellClickEntry "Pharmacy" 0
          SentimentDashboard.firstClickResolved)).isAnimationRunning = true ∧
    (SentimentDashboard.sentimentAnimEffectBody
        (SentimentDashboard.handleCellClickEntry "Pharmacy" 0
          SentimentDashboard.firstClickResolved)).agentTimerActive =
      SentimentDashboard.firstClickResolved.agentTimerActive ∧
    (SentimentDashboard.sentimentAnimEffectBody
        (SentimentDashboard.handleCellClickEntry "Pharmacy" 0
          SentimentDashboard.firstClickResolved)).pendingResult = none ∧
    (SentimentDashboard.sentimentAnimEffectBody
        (SentimentDashboard.handleCellClickEntry "Pharmacy" 0
          SentimentDashboard.firstClickResolved)).animationComplete = false ∧
    (SentimentDashboard.sentimentAnimEffectBody
        (SentimentDashboard.handleCellClickEntry "Pharmacy" 0
          SentimentDashboard.firstClickResolved)).selectedCell = some ("Pharmacy", 0) :=
  claim_C5_reentrant_run_no_second_animation Nat "Pharmacy" 0
    SentimentDashboard.firstClickResolved rfl

/-- C6 counterexample: in SentimentDashboard, when the animation finishes
while the remote result is still pending, the commit check changes nothing
at all - the component has no finalizing sub-state and shows no distinct
message - refuting the claim that all three stage-animated dashboards enter
a visible finalizing sub-state. -/
theorem claim_C6_counterexample_sentiment_no_finalizing_substate :
    SentimentDashboard.sentimentCommitEffect (SentimentDashboard.sentimentAnimFirstRaw Nat "Electronics" 1) =
      SentimentDashboard.sentimentAnimFirstRaw Nat "Electronics" 1 ∧
    (SentimentDashboard.sentimentAnimFirstRaw Nat "Electronics" 1).showAgentProgress = true ∧
    (SentimentDashboard.sentimentAnimFirstRaw Nat "Electronics" 1).animationComplete = true ∧
    (SentimentDashboard.sentimentAnimFirstRaw Nat "Electronics" 1).pendingResult = none := by
  decide

/-- C6 amended: only RetentionAnalytics enters a distinct finalizing
sub-state (isFinalizing set, rendering a distinct banner, clock still
running) when the animation finishes before the remote result; in
LearningPathway and SentimentDashboard the commit check leaves the state
unchanged in that situation, so the progress view merely persists (clock
still running) - and in all three, the commit fires once the result then
arrives. -/
theorem claim_C6_finalizing_only_retention (ρ : Type) (p : ρ)
    (q : LearningPathway.LearningPath ρ) (dept : String) (w : Nat) :
    (RetentionAnalytics.animFirstMid ρ).isFinalizing = true ∧
    (RetentionAnalytics.animFirstMid ρ).showingAgentProgress = true ∧
    (RetentionAnalytics.animFirstMid ρ).clockActive = true ∧
    (RetentionAnalytics.animFirstDone ρ p).retentionAnalysis = some p ∧
    (RetentionAnalytics.animFirstDone ρ p).commitCount = 1 ∧
    LearningPathway.learningCommitEffect (LearningPathway.learningAnimFirstRaw ρ) =
      LearningPathway.learningAnimFirstRaw ρ ∧
    (LearningPathway.learningAnimFirstRaw ρ).showAgentProgress = true ∧
    (LearningPathway.learningAnimFirstRaw ρ).clockActive = true ∧
    (LearningPathway.learningAnimFirstDone ρ q).learningPaths q.employee_id = some q ∧
    (LearningPathway.learningAnimFirstDone ρ q).commitCount = 1 ∧
    SentimentDashboard.sentimentCommitEffect (SentimentDashboard.sentimentAnimFirstRaw ρ dept w) =
      SentimentDashboard.sentimentAnimFirstRaw ρ dept w ∧
    (SentimentDashboard.sentimentAnimFirstRaw ρ dept w).showAgentProgress = true ∧
    (SentimentDashboard.sentimentAnimFirstRaw ρ dept w).clockActive = true ∧
    (SentimentDashboard.sentimentAnimFirstDone ρ dept w p).cellInsight = some p ∧
    (SentimentDashboard.sentimentAnimFirstDone ρ dept w p).commitCount = 1 := by
  and_intros <;>
    first
      | rfl
      | simp [LearningPathway.learningAnimFirstDone, LearningPathway.learningAnimFirstMid,
              LearningPathway.learningAnimFirstRaw, LearningPathway.learningCommitEffect,
              LearningPathway.learningRemoteSuccess, LearningPathway.learningRunStart,
              LearningPathway.learningAnimEffectBody, LearningPathway.learningAnimCleanup,
              LearningPathway.learningTimerEffect, LearningPathway.createLearningPathEntry,
              LearningPathway.learningIdle, LearningPathway.applyLearningAnimEvent]

/-- C7: for every dwell assignment, in each of the three stage-animated
dashboards the timer schedule raises the sequence-complete signal exactly
once per run, as the last scheduled callback, exactly one fixed 1000 ms
settle delay after the callback that marks the final stage completed; and
that settle callback is what sets animationComplete to true. -/
theorem claim_C7_settle_delay_single_signal (wt : Nat → Nat) (ρ : Type)
    (sR : RetentionAnalytics.RetentionState ρ) (sL : LearningPathway.LearningState ρ)
    (sS : SentimentDashboard.SentimentState ρ) :
    ((RetentionAnalytics.retentionAnimTimeline wt).countP
      (fun e => decide (e.2 = AnimEvent.signalComplete))) = 1 ∧
    (RetentionAnalytics.retentionAnimTimeline wt).getLast? = some (1000, AnimEvent.signalComplete) ∧
    ((RetentionAnalytics.retentionAnimTimeline wt).dropLast).getLast? =
      some (wt 4, AnimEvent.advanceFinish 4) ∧
    ((LearningPathway.learningAnimTimeline wt).countP
      (fun e => decide (e.2 = AnimEvent.signalComplete))) = 1 ∧
    (LearningPathway.learningAnimTimeline wt).getLast? = some (1000, AnimEvent.signalComplete) ∧
    ((LearningPathway.learningAnimTimeline wt).dropLast).getLast? =
      some (wt 2, AnimEvent.advanceFinish 2) ∧
    ((SentimentDashboard.sentimentAnimTimeline wt).countP
      (fun e => decide (e.2 = AnimEvent.signalComplete))) = 1 ∧
    (SentimentDashboard.sentimentAnimTimeline wt).getLast? = some (1000, AnimEvent.signalComplete) ∧
    ((SentimentDashboard.sentimentAnimTimeline wt).dropLast).getLast? =
      some (wt 3, AnimEvent.advanceFinish 3) ∧
    (RetentionAnalytics.applyRetentionAnimEvent AnimEvent.signalComplete sR).animationComplete = true ∧
    (LearningPathway.applyLearningAnimEvent AnimEvent.signalComplete sL).animationComplete = true ∧
    (SentimentDashboard.applySentimentAnimEvent AnimEvent.signalComplete sS).animationComplete = true := by
  and_intros <;> rfl

/-- C8: evaluation of the code at the failing input.  A run is cancelled
(the progress flag goes false via the rejection path) while the stage-0
dwell timeout is pending: the clock and fact intervals are cleared, but the
animation effect cleanup tests the stale captured value of the progress
flag, so the stage-advance timeout is NOT cleared and the reentrancy ref
stays set; when the stale timeout then fires, it still mutates the stage
list after cancellation.  The claim's second half does hold: a subsequent
run starts with a freshly reset all-waiting stage list. -/
theorem claim_C8_cancel_leaves_stage_timer :
    RetentionAnalytics.cancelScenarioCancelled.showingAgentProgress = false ∧
    RetentionAnalytics.cancelScenarioCancelled.clockActive = false ∧
    RetentionAnalytics.cancelScenarioCancelled.factActive = false ∧
    RetentionAnalytics.cancelScenarioCancelled.agentTimerActive = true ∧
    RetentionAnalytics.cancelScenarioCancelled.isAnimationRunning = true ∧
    RetentionAnalytics.cancelScenarioStaleFire.agentProgress ≠
      RetentionAnalytics.cancelScenarioCancelled.agentProgress ∧
    RetentionAnalytics.cancelScenarioRestart.agentProgress.all
      (fun a => decide (a.status = AgentStatus.waiting)) = true ∧
    RetentionAnalytics.cancelScenarioRestart.agentTimerActive = true ∧
    RetentionAnalytics.cancelScenarioRestart.isAnimationRunning = true := by
  decide

/-- C9: the elapsed-seconds counter does not gate the commit.  The commit
effect commutes with overriding elapsedTime (it neither reads nor writes
the counter), and a clock tick changes neither the commit inputs
(pendingResult, animationComplete) nor the committed slot nor the commit
count - so two executions differing only in the counter commit identically. -/
theorem claim_C9_elapsed_time_noninterference (ρ : Type)
    (s : RetentionAnalytics.RetentionState ρ) (e : Nat) :
    RetentionAnalytics.retentionCommitEffect { s with elapsedTime := e } =
      { RetentionAnalytics.retentionCommitEffect s with elapsedTime := e } ∧
    (RetentionAnalytics.retentionTick s).pendingResult = s.pendingResult ∧
    (RetentionAnalytics.retentionTick s).animationComplete = s.animationComplete ∧
    (RetentionAnalytics.retentionTick s).retentionAnalysis = s.retentionAnalysis ∧
    (RetentionAnalytics.retentionTick s).commitCount = s.commitCount := by
  obtain ⟨iA, rA, eT, cF, aP, sP, pR, aC, iF, iR, tA, cA, fA, cc⟩ := s
  refine ⟨?_, ?_, ?_, ?_, ?_⟩ <;>
    cases aC <;> cases pR <;> cases cA <;>
      simp [RetentionAnalytics.retentionCommitEffect, RetentionAnalytics.retentionTick]

/-- C10: while a run's progress view is showing, the modal backdrop click
handlers of LearningPathway and SentimentDashboard are no-ops, so an
in-flight run cannot be cancelled from the UI. -/
theorem claim_C10_backdrop_noop_during_progress (ρ : Type)
    (sL : LearningPathway.LearningState ρ) (sS : SentimentDashboard.SentimentState ρ)
    (hL : sL.showAgentProgress = true) (hS : sS.showAgentProgress = true) :
    LearningPathway.createPathModalBackdropClick sL = sL ∧
    SentimentDashboard.insightModalBackdropClick sS = sS := by
  constructor
  · simp [LearningPathway.createPathModalBackdropClick, hL]
  · simp [SentimentDashboard.insightModalBackdropClick, hS]

/-- C10 witness: the backdrop no-op theorem applied at concrete in-run
states (right after createLearningPath and handleCellClick set the
progress flag). -/
theorem claim_C10_backdrop_noop_witness :
    LearningPathway.createPathModalBackdropClick
        (LearningPathway.createLearningPathEntry (LearningPathway.learningIdle Nat)) =
      LearningPathway.createLearningPathEntry (LearningPathway.learningIdle Nat) ∧
    SentimentDashboard.insightModalBackdropClick
        (SentimentDashboard.handleCellClickEntry "Electronics" 1 (SentimentDashboard.sentimentIdle Nat)) =
      SentimentDashboard.handleCellClickEntry "Electronics" 1 (SentimentDashboard.sentimentIdle Nat) :=
  claim_C10_backdrop_noop_during_progress Nat
    (LearningPathway.createLearningPathEntry (LearningPathway.learningIdle Nat))
    (SentimentDashboard.handleCellClickEntry "Electronics" 1 (SentimentDashboard.sentimentIdle Nat))
    rfl rfl
